import Mathlib

/-!
Verification of the UBeacon in-process introspection agent (trace.c,
interact.c, ubeacon.c) against its natural-language specification.

The C sources are shallowly embedded as executable Lean definitions:

* `s_ubeacon_simple_hash`, `s_calculate_stack_depth`, `s_exception_type`,
  `s_is_exception_origin` and `s_trace_entry_point` embed
  `src/python/src/ubeacon/lib/trace.c`;
* `s_dict_value_addr`, `s_resolve_name` / `s_resolve_index` / `s_resolve_key` /
  `s_resolve_attr`, `s_resolve_steps`, `s_ubeacon_interact_files_json`,
  `s_ubeacon_interact_backtrace_json`, `s_ubeacon_interact_locals_json` and
  `s_ubeacon_interact_resolve_watch_chain` embed
  `src/python/src/ubeacon/lib/interact.c`;
* `ubeacon_trace_setup` and `s_ubeacon_start` embed
  `src/python/src/ubeacon/lib/trace.c` and `src/ubeacon/ubeacon.c`.

Machine pointers are modelled as structured values (`Addr`) keyed by object
identity and slot index, Python objects as entries of a heap list indexed by
numeric object ids, and C `NULL` as `Option.none`.
-/

/-! ## FNV-1 hash (trace.c, s_ubeacon_simple_hash)

The C function maps `NULL` to 0 and otherwise folds `hash = (hash ^ byte) *
prime` over the bytes of the string with `uint64_t` wraparound arithmetic,
modelled with an explicit `% 2 ^ 64`. -/

def s_ubeacon_simple_hash : Option String → Nat
  | none => 0
  | some s =>
      s.data.foldl (fun h c => ((h ^^^ c.toNat) * 0x100000001b3) % 2 ^ 64)
        0xcbf29ce484222325

/-! ## Frames and stack depth (trace.c, s_calculate_stack_depth)

A live frame chain is a nonempty list of frame records, head first; walking the
`f_back` chain of frame `top` visits exactly the elements of `top :: back`. -/

structure FrameRec where
  fid : Nat
  funcName : String
  fileName : String
  line : Nat
deriving DecidableEq, Repr

/-- Embeds the loop of `s_calculate_stack_depth`: count the frames reached by
following the back-reference chain. -/
def s_calculate_stack_depth : List FrameRec → Nat
  | [] => 0
  | _ :: rest => s_calculate_stack_depth rest + 1

theorem s_calculate_stack_depth_eq_length (l : List FrameRec) :
    s_calculate_stack_depth l = l.length := by
  induction l with
  | nil => rfl
  | cons f rest ih => simp [s_calculate_stack_depth, ih]

/-! ## Exception info and origin detection (trace.c) -/

/-- One traceback entry; `tb_frame` is `none` when the `tb_frame` attribute is
missing or null (the code comments that Python 3.12 can return null frames).
The `tb_next` chain is the tail of the enclosing list. -/
structure TBEntry where
  tb_frame : Option Nat
deriving DecidableEq, Repr

/-- The `arg` passed to the trace function on an exception event: the
`exc_info` triple. `isTuple` and `size` model the `PyTuple_Check` /
`PyTuple_Size` guards; `excTypeName` is `exc_type.__name__` (`none` when the
attribute lookup fails); `tb` is the traceback entry chain in `tb_next`
order. -/
structure ExcArg where
  isTuple : Bool
  size : Nat
  excTypeName : Option String
  tb : List TBEntry
deriving DecidableEq, Repr

/-- Embeds the `while (next != NULL && next != Py_None)` loop of
`s_is_exception_origin`.  The first argument is the remaining `tb_next` chain
(`[]` models `None`), the second the current value of the `frame` variable.
On each iteration the code advances `next` and, when the advanced `next` is
exhausted, assigns `frame = NULL` — faithfully reproduced here. -/
def s_origin_loop : List TBEntry → Option Nat → Option Nat
  | [], frame => frame
  | _ :: rest, _ =>
      s_origin_loop rest
        (match rest with
         | [] => none
         | t :: _ => t.tb_frame)

/-- Embeds `s_is_exception_origin` from trace.c.  The guards that fail with a
Python error set return `NULL`, which the `bool` return type reads as
`false`. -/
def s_is_exception_origin (arg : ExcArg) (current_frame : Nat) : Bool :=
  if arg.isTuple = false then false
  else if arg.size ≠ 3 then false
  else
    let frame0 : Option Nat :=
      match arg.tb with
      | [] => none
      | t :: _ => t.tb_frame
    s_origin_loop arg.tb.tail frame0 == some current_frame

/-- The frame recorded at the tail of the traceback `tb_next` chain — the
quantity the specification says `s_is_exception_origin` compares with the
current frame. -/
def traceback_tail_frame (tb : List TBEntry) : Option Nat :=
  match tb.getLast? with
  | some t => t.tb_frame
  | none => none

/-- After at least one iteration of the walk, the loop's `frame` variable is
always `NULL`: the final iteration unconditionally overwrites it. -/
theorem s_origin_loop_cons (t : TBEntry) (rest : List TBEntry) (f : Option Nat) :
    s_origin_loop (t :: rest) f = none := by
  induction rest generalizing t f with
  | nil => rfl
  | cons t2 rest2 ih => simpa [s_origin_loop] using ih t2 t2.tb_frame

/-- For every traceback of two or more entries the code reports
`exception_origin = false`, whatever the frames involved. -/
theorem s_is_exception_origin_multi_entry_false (arg : ExcArg) (cur : Nat)
    (t0 t1 : TBEntry) (rest : List TBEntry) (h : arg.tb = t0 :: t1 :: rest) :
    s_is_exception_origin arg cur = false := by
  unfold s_is_exception_origin
  rcases arg with ⟨it, sz, tn, tb⟩
  simp only at h
  subst h
  cases it <;> simp [s_origin_loop_cons]

/-- Embeds `s_exception_type` from trace.c (result `none` models the `NULL`
returns on guard failure). -/
def s_exception_type (arg : ExcArg) : Option String :=
  if arg.isTuple = false then none
  else if arg.size ≠ 3 then none
  else arg.excTypeName

/-! ## The trace entry point (trace.c, s_trace_entry_point) -/

inductive TraceWhat where
  | call
  | line
  | ret
  | exception
deriving DecidableEq, Repr

/-- The process-wide `undo_beacon_t` singleton (ubeacon.h), extended with
`heldFrameRefs`: the multiset of frame ids on which the tracker currently
holds a counted reference (`Py_INCREF` adds an id, `Py_XDECREF` removes
one occurrence). -/
structure BeaconState where
  current_file : Option String
  current_func : Option String
  current_file_id : Nat
  current_line : Nat
  current_func_id : Nat
  current_frame : Option Nat
  current_depth : Nat
  first_line : Bool
  exception_origin : Bool
  exception_info : Option ExcArg
  exception_type : Option String
  exception_type_id : Nat
  heldFrameRefs : List Nat
deriving DecidableEq, Repr

def initBeacon : BeaconState :=
  { current_file := none
    current_func := none
    current_file_id := 0
    current_line := 0
    current_func_id := 0
    current_frame := none
    current_depth := 0
    first_line := false
    exception_origin := false
    exception_info := none
    exception_type := none
    exception_type_id := 0
    heldFrameRefs := [] }

/-- `Py_XDECREF(f)` on the reference ledger: drop one held reference to `f`
(no effect when none is held, matching `Py_XDECREF(NULL)`-safety). -/
def s_refs_erase : List Nat → Nat → List Nat
  | [], _ => []
  | x :: rest, f => if x = f then rest else x :: s_refs_erase rest f

/-- The unconditional prologue of `s_trace_entry_point` (trace.c lines
196-220): recompute the depth, incref the new frame, overwrite the
identification fields, xdecref the previously held frame, store the new frame
and clear the exception state. -/
def s_trace_prologue (st : BeaconState) (top : FrameRec) (back : List FrameRec) :
    BeaconState :=
  { current_depth := s_calculate_stack_depth (top :: back)
    current_file := some top.fileName
    current_func := some top.funcName
    current_file_id := s_ubeacon_simple_hash (some top.fileName)
    current_line := top.line
    current_frame := some top.fid
    current_func_id := s_ubeacon_simple_hash (some top.funcName)
    first_line := st.first_line
    exception_origin := false
    exception_info := none
    exception_type := none
    exception_type_id := 0
    heldFrameRefs :=
      match st.current_frame with
      | some f => s_refs_erase (top.fid :: st.heldFrameRefs) f
      | none => top.fid :: st.heldFrameRefs }

/-- Embeds `s_trace_entry_point` from trace.c.  `top` is the frame passed in,
`back` its back-reference chain.  The prologue runs for every event kind; the
trailing `switch (what)` applies the per-kind effects. -/
def s_trace_entry_point (st : BeaconState) (top : FrameRec) (back : List FrameRec)
    (what : TraceWhat) (arg : Option ExcArg) : BeaconState :=
  match what with
  | TraceWhat.line => { s_trace_prologue st top back with first_line := false }
  | TraceWhat.ret =>
      { s_trace_prologue st top back with
        current_frame := none
        heldFrameRefs :=
          s_refs_erase (s_trace_prologue st top back).heldFrameRefs top.fid }
  | TraceWhat.call => { s_trace_prologue st top back with first_line := true }
  | TraceWhat.exception =>
      match arg with
      | none => s_trace_prologue st top back
      | some a =>
          { s_trace_prologue st top back with
            exception_origin := s_is_exception_origin a top.fid
            exception_info := some a
            exception_type := s_exception_type a
            exception_type_id := s_ubeacon_simple_hash (s_exception_type a) }

theorem s_trace_entry_point_depth (st : BeaconState) (top : FrameRec)
    (back : List FrameRec) (what : TraceWhat) (arg : Option ExcArg) :
    (s_trace_entry_point st top back what arg).current_depth = back.length + 1 := by
  unfold s_trace_entry_point s_trace_prologue
  cases what <;>
    simp [s_calculate_stack_depth, s_calculate_stack_depth_eq_length]
  cases arg <;> simp [s_calculate_stack_depth, s_calculate_stack_depth_eq_length]

/-! ## Event sequences for the depth invariant (C4)

The runtime pushes a frame and then fires `call`, fires `line` with the top
frame, and fires `return` with the returning frame still live, popping it
afterwards.  `stepEvent` is `none` on a sequence that is not strictly
nested. -/

inductive TEvent where
  | call (f : FrameRec)
  | line
  | ret
deriving DecidableEq, Repr

def stepEvent (st : BeaconState) (stack : List FrameRec) :
    TEvent → Option (BeaconState × List FrameRec)
  | TEvent.call f => some (s_trace_entry_point st f stack TraceWhat.call none, f :: stack)
  | TEvent.line =>
      match stack with
      | [] => none
      | top :: rest => some (s_trace_entry_point st top rest TraceWhat.line none, top :: rest)
  | TEvent.ret =>
      match stack with
      | [] => none
      | top :: rest => some (s_trace_entry_point st top rest TraceWhat.ret none, rest)

/-- Run a sequence of events through the tracker, recording the value of
`current_depth` after each event. -/
def runTrace (st : BeaconState) (stack : List FrameRec) :
    List TEvent → Option (BeaconState × List FrameRec × List Nat)
  | [] => some (st, stack, [])
  | e :: es =>
      match stepEvent st stack e with
      | none => none
      | some (st2, stack2) =>
          match runTrace st2 stack2 es with
          | none => none
          | some (st3, stack3, ds) => some (st3, stack3, st2.current_depth :: ds)

/-- The specification-side count: the number of calls open at each event, a
call being counted as open from its `call` event through its `return`
event inclusive.  `none` on a sequence that is not strictly nested. -/
def openCallCounts (n : Nat) : List TEvent → Option (List Nat)
  | [] => some []
  | TEvent.call _ :: es =>
      match openCallCounts (n + 1) es with
      | none => none
      | some l => some ((n + 1) :: l)
  | TEvent.line :: es =>
      if n = 0 then none
      else
        match openCallCounts n es with
        | none => none
        | some l => some (n :: l)
  | TEvent.ret :: es =>
      if n = 0 then none
      else
        match openCallCounts (n - 1) es with
        | none => none
        | some l => some (n :: l)

/-! ## CPython dict internals (interact.c, s_dict_value_addr)

A dict's keys table is a list of entries in table order; `me_key` is `none`
for an empty/cleared entry and a non-string tag for a non-unicode key (both
skipped by the scan).  `split = true` models `dict->ma_values != NULL`: the
values live in a separate parallel array indexed by entry index.  The entry's
observable value is `me_value` in either layout; the layout only changes
which slot address is returned. -/

inductive DKey where
  | str (s : String)
  | nonstr (tag : Nat)
deriving DecidableEq, Repr

structure DictEntry where
  me_key : Option DKey
  me_value : Nat
deriving DecidableEq, Repr

structure DictObj where
  entries : List DictEntry
  split : Bool
deriving DecidableEq, Repr

/-- Structured model of the machine addresses the resolver hands out.
Constructor injectivity models the fact that distinct slots of distinct
objects have distinct addresses. -/
inductive Addr where
  | dictEntryValue (did : Nat) (i : Nat)
  | dictSplitValue (did : Nat) (i : Nat)
  | fastLocal (fid : Nat) (i : Nat)
  | listItem (lid : Nat) (i : Nat)
  | listItemsField (lid : Nat)
deriving DecidableEq, Repr

/-- `e.me_key` is a unicode key exactly matching `key` (the `strcmp` in the
scan loop of `s_dict_value_addr`). -/
def entryMatches (e : DictEntry) (key : String) : Bool :=
  match e.me_key with
  | some (DKey.str k) => k = key
  | _ => false

/-- The scan loop of `s_dict_value_addr`: `i` is the running entry index. -/
def s_dict_value_addr_go (did : Nat) (split : Bool) (key : String) :
    Nat → List DictEntry → Option Addr
  | _, [] => none
  | i, e :: rest =>
      if entryMatches e key then
        some (if split then Addr.dictSplitValue did i else Addr.dictEntryValue did i)
      else s_dict_value_addr_go did split key (i + 1) rest

/-- Embeds `s_dict_value_addr` from interact.c: scan the entries in table
order; on an exact string-key match return `&dv->values[i]` for a split table
and `&entries[i].me_value` for a combined table; `none` models the `NULL`
(not-found) return. `did` is the identity of the dict object. -/
def s_dict_value_addr (did : Nat) (d : DictObj) (key : String) : Option Addr :=
  s_dict_value_addr_go did d.split key 0 d.entries

/-- Model of `PyDict_GetItemString`, consistent with the entries table: the
value of the first entry whose key is the exact string. -/
def s_dict_get_item_go : List DictEntry → String → Option Nat
  | [], _ => none
  | e :: rest, key =>
      if entryMatches e key then some e.me_value else s_dict_get_item_go rest key

def s_dict_get_item (d : DictObj) (key : String) : Option Nat :=
  s_dict_get_item_go d.entries key

/-! ## The object heap for the watch-chain resolver -/

/-- A Python value as the resolver distinguishes them: a list holds the object
ids of its elements (`ob_item`); a generic object holds an optional instance
`__dict__` (an object id pointing at a dict) and fixed slot/computed
attributes. -/
inductive PyVal where
  | list (items : List Nat)
  | dict (d : DictObj)
  | intv (n : Int)
  | strv (s : String)
  | object (instDict : Option Nat) (slots : List (String × Nat))
  | noneV
deriving DecidableEq, Repr

/-- Heap lookup: object ids index a list of values. -/
def s_heap_get (heap : List PyVal) (oid : Nat) : Option PyVal :=
  heap.get? oid

/-- The frame data the resolver consults: `co_varnames` and the fast-local
slots `localsplus` (a slot holds `none` when the local is unbound/NULL). -/
structure RFrame where
  fid : Nat
  varnames : List String
  localsplus : List (Option Nat)
deriving DecidableEq, Repr

structure ResolveCtx where
  heap : List PyVal
  frame : RFrame
  globalsId : Option Nat
deriving DecidableEq, Repr

/-- One emitted link (the cJSON object built by `s_make_link`): `none` models
the null address / null pointer. -/
structure Link where
  storage_addr : Option Addr
  current_value : Option Nat
  link_type : String
  guard_addr : Option Addr
deriving DecidableEq, Repr

/-- One parsed chain step.  The `Option` payload is `none` when the step
object's data field is missing or has the wrong JSON type; `badType` covers a
missing, non-string or unrecognised "type" field. -/
inductive Step where
  | name (n : Option String)
  | index (i : Option Int)
  | key (k : Option String)
  | attr (n : Option String)
  | badType
deriving DecidableEq, Repr

/-- The varnames scan of the name step: index of the first exact match. -/
def s_varname_index_go : List String → String → Nat → Option Nat
  | [], _, _ => none
  | v :: rest, nm, j =>
      if v = nm then some j else s_varname_index_go rest nm (j + 1)

def s_varname_index (varnames : List String) (nm : String) : Option Nat :=
  s_varname_index_go varnames nm 0

/-- The globals fallback of the name step (`PyEval_GetGlobals` followed by
`PyDict_GetItemString`): the value found for `nm` in the global namespace. -/
def s_globals_lookup (ctx : ResolveCtx) (nm : String) : Option Nat :=
  match ctx.globalsId with
  | none => none
  | some gid =>
      match s_heap_get ctx.heap gid with
      | some (PyVal.dict d) => s_dict_get_item d nm
      | _ => none

/-- Embeds the `"name"` branch of the chain loop: try the fast locals by
declared name, fall back to the globals dict, otherwise emit nothing and leave
`current_obj` untouched.  Returns the emitted link (if any) and the new
cursor. -/
def s_resolve_name (ctx : ResolveCtx) (cursor : Option Nat) (nm : String) :
    Option Link × Option Nat :=
  match s_varname_index ctx.frame.varnames nm with
  | some idx =>
      (some { storage_addr := some (Addr.fastLocal ctx.frame.fid idx)
              current_value := ctx.frame.localsplus.getD idx none
              link_type := "local"
              guard_addr := none }, ctx.frame.localsplus.getD idx none)
  | none =>
      match ctx.globalsId with
      | none => (none, cursor)
      | some gid =>
          match s_heap_get ctx.heap gid with
          | some (PyVal.dict d) =>
              match s_dict_get_item d nm with
              | some v =>
                  (some { storage_addr := s_dict_value_addr gid d nm
                          current_value := some v
                          link_type := "global"
                          guard_addr := none }, some v)
              | none => (none, cursor)
          | _ => (none, cursor)

/-- Embeds the `"index"` branch: requires `current_obj` to be a list and the
index in `[0, Py_SIZE)`; the storage address is `&list->ob_item[index]`, the
guard address `&list->ob_item`. -/
def s_resolve_index (ctx : ResolveCtx) (cursor : Option Nat) (i : Int) :
    Option Link × Option Nat :=
  match cursor with
  | none => (none, none)
  | some cid =>
      match s_heap_get ctx.heap cid with
      | some (PyVal.list items) =>
          if 0 ≤ i ∧ i < (items.length : Int) then
            (some { storage_addr := some (Addr.listItem cid i.toNat)
                    current_value := items.get? i.toNat
                    link_type := "list_item"
                    guard_addr := some (Addr.listItemsField cid) }, items.get? i.toNat)
          else (none, some cid)
      | _ => (none, some cid)

/-- Embeds the `"key"` branch: requires `current_obj` to be a dict; the
storage address comes from `s_dict_value_addr`. -/
def s_resolve_key (ctx : ResolveCtx) (cursor : Option Nat) (key : String) :
    Option Link × Option Nat :=
  match cursor with
  | none => (none, none)
  | some cid =>
      match s_heap_get ctx.heap cid with
      | some (PyVal.dict d) =>
          match s_dict_get_item d key with
          | some v =>
              (some { storage_addr := s_dict_value_addr cid d key
                      current_value := some v
                      link_type := "dict_key"
                      guard_addr := none }, some v)
          | none => (none, some cid)
      | _ => (none, some cid)

def s_lookup_slot : List (String × Nat) → String → Option Nat
  | [], _ => none
  | p :: rest, nm => if p.1 = nm then some p.2 else s_lookup_slot rest nm

/-- Model of `PyObject_GetAttrString` for the objects in scope: an attribute
is found in the instance `__dict__` first, then among the fixed
slot/computed attributes. -/
def s_getattr (heap : List PyVal) (oid : Nat) (nm : String) : Option Nat :=
  match s_heap_get heap oid with
  | some (PyVal.object instDict slots) =>
      (match instDict with
       | some did =>
           match s_heap_get heap did with
           | some (PyVal.dict d) => s_dict_get_item d nm
           | _ => none
       | none => none) <|> s_lookup_slot slots nm
  | _ => none

/-- Embeds the `"attr"` branch: fetch the attribute through the attribute
protocol; if it is backed by the instance `__dict__`, resolve the storage slot
there (`dict_attr`), else report a slot/computed attribute with unknown
storage (`slot_attr`). -/
def s_resolve_attr (ctx : ResolveCtx) (cursor : Option Nat) (nm : String) :
    Option Link × Option Nat :=
  match cursor with
  | none => (none, none)
  | some cid =>
      match s_getattr ctx.heap cid nm with
      | none => (none, some cid)
      | some v =>
          match s_heap_get ctx.heap cid with
          | some (PyVal.object (some did) _) =>
              match s_heap_get ctx.heap did with
              | some (PyVal.dict d) =>
                  match s_dict_get_item d nm with
                  | some _ =>
                      (some { storage_addr := s_dict_value_addr did d nm
                              current_value := some v
                              link_type := "dict_attr"
                              guard_addr := none }, some v)
                  | none =>
                      (some { storage_addr := none
                              current_value := some v
                              link_type := "slot_attr"
                              guard_addr := none }, some v)
              | _ =>
                  (some { storage_addr := none
                          current_value := some v
                          link_type := "slot_attr"
                          guard_addr := none }, some v)
          | _ =>
              (some { storage_addr := none
                      current_value := some v
                      link_type := "slot_attr"
                      guard_addr := none }, some v)

/-- Dispatch on the step's "type" field; a structurally invalid step is a
`continue`: no link, cursor untouched. -/
def s_resolve_step (ctx : ResolveCtx) (cursor : Option Nat) :
    Step → Option Link × Option Nat
  | Step.badType => (none, cursor)
  | Step.name none => (none, cursor)
  | Step.name (some nm) => s_resolve_name ctx cursor nm
  | Step.index none => (none, cursor)
  | Step.index (some i) => s_resolve_index ctx cursor i
  | Step.key none => (none, cursor)
  | Step.key (some k) => s_resolve_key ctx cursor k
  | Step.attr none => (none, cursor)
  | Step.attr (some nm) => s_resolve_attr ctx cursor nm

/-- The chain loop of `s_ubeacon_interact_resolve_watch_chain`: walk the steps
left to right, threading `current_obj` and appending each emitted link. -/
def s_resolve_steps (ctx : ResolveCtx) : Option Nat → List Step → List Link
  | _, [] => []
  | cursor, s :: rest =>
      match s_resolve_step ctx cursor s with
      | (some l, cursor2) => l :: s_resolve_steps ctx cursor2 rest
      | (none, cursor2) => s_resolve_steps ctx cursor2 rest

/-! ## Query wrappers (interact.c) -/

/-- What a query writes to its destination file.  `nothingWritten` models the
early `return` paths (null path / `fopen` failure); `garbage` models printing
an uninitialized `cJSON` pointer (undefined behaviour — no well-formed
output). -/
inductive QueryOutput (α : Type) where
  | nothingWritten
  | garbage
  | written (a : α)
deriving DecidableEq, Repr

/-- A loaded module as the files dump sees it: `file` is `none` when the
module has no `__file__` attribute, `some none` when `__file__` is `None` or
not a string, and `some (some p)` for a string path. -/
structure ModuleInfo where
  file : Option (Option String)
deriving DecidableEq, Repr

/-- `s_starts_with hay needle`: `needle` is an initial run of `hay`. -/
def s_starts_with : List Char → List Char → Bool
  | _, [] => true
  | [], _ :: _ => false
  | c :: cs, n :: ns => c = n && s_starts_with cs ns

/-- Model of C `strstr(hay, needle) != NULL`: `needle` occurs somewhere in
`hay`. -/
def s_strstr : List Char → List Char → Bool
  | [], needle => s_starts_with [] needle
  | c :: rest, needle => s_starts_with (c :: rest) needle || s_strstr rest needle

/-- `s` ends with suffix `suf` — the specification-side notion of "has the
`.py` file extension" (`s_ends_with path ".py"`). -/
def s_ends_with (s suf : List Char) : Bool :=
  s_starts_with s.reverse suf.reverse

/-- The per-module filter in the loop of `s_ubeacon_interact_files_json`:
skip modules without `__file__`, skip `None`/non-string values, and include
the path when `strstr(path, ".py") != NULL`. -/
def s_module_file_entry (m : ModuleInfo) : Option String :=
  match m.file with
  | none => none
  | some none => none
  | some (some p) => if s_strstr p.data ".py".data then some p else none

structure FilesOut where
  files : List String
deriving DecidableEq, Repr

/-- Embeds `s_ubeacon_interact_files_json`.  `pathsOk` models a non-null path
whose `fopen` succeeds.  The function never checks `Py_IsInitialized`; when
the runtime is down the `sys` import fails and control jumps to
`fail_no_python`, which prints the still-uninitialized `top_level` pointer —
modelled as `garbage`. -/
def s_ubeacon_interact_files_json (pathsOk : Bool) (pyInit : Bool)
    (modules : List ModuleInfo) : QueryOutput FilesOut :=
  if pathsOk = false then QueryOutput.nothingWritten
  else if pyInit = false then QueryOutput.garbage
  else QueryOutput.written { files := modules.filterMap s_module_file_entry }

structure FrameJson where
  func_name : String
  file_name : String
  line : Nat
  frame_no : Nat
deriving DecidableEq, Repr

def s_frame_to_cJSON (f : FrameRec) (frame_no : Nat) : FrameJson :=
  { func_name := f.funcName
    file_name := f.fileName
    line := f.line
    frame_no := frame_no }

def s_backtrace_loop : List FrameRec → Nat → List FrameJson
  | [], _ => []
  | f :: rest, n => s_frame_to_cJSON f n :: s_backtrace_loop rest (n + 1)

structure BacktraceOut where
  frames : List FrameJson
deriving DecidableEq, Repr

/-- Embeds `s_ubeacon_interact_backtrace_json` (the cJSON version): the
`frames` array is built before the `Py_IsInitialized` check, so an
uninitialized runtime still prints the well-formed empty object. -/
def s_ubeacon_interact_backtrace_json (pathsOk : Bool) (pyInit : Bool)
    (chain : List FrameRec) : Option BacktraceOut :=
  if pathsOk = false then none
  else if pyInit = false then some { frames := [] }
  else some { frames := s_backtrace_loop chain 0 }

structure LocalsOut where
  locals : List (String × String)
deriving DecidableEq, Repr

/-- Embeds `s_ubeacon_interact_locals_json` (the cJSON version); the locals
are taken pre-stringified. -/
def s_ubeacon_interact_locals_json (pathsOk : Bool) (pyInit : Bool)
    (locs : List (String × String)) : Option LocalsOut :=
  if pathsOk = false then none
  else if pyInit = false then some { locals := [] }
  else some { locals := locs }

structure LinksOut where
  links : List Link
deriving DecidableEq, Repr

/-- Embeds `s_ubeacon_interact_resolve_watch_chain`'s outer control flow: the
`links` array exists before the `Py_IsInitialized` check, an unreadable or
unparseable input (`input = none`) and a null current frame both jump to the
print, and otherwise the chain loop runs against the tracker's current
frame. -/
def s_ubeacon_interact_resolve_watch_chain (pathsOk : Bool) (pyInit : Bool)
    (input : Option (List Step)) (heap : List PyVal) (globalsId : Option Nat)
    (current_frame : Option RFrame) : Option LinksOut :=
  if pathsOk = false then none
  else if pyInit = false then some { links := [] }
  else
    match input with
    | none => some { links := [] }
    | some steps =>
        match current_frame with
        | none => some { links := [] }
        | some fr =>
            some { links := s_resolve_steps
                     { heap := heap, frame := fr, globalsId := globalsId } none steps }

/-! ## Trace setup (trace.c, ubeacon.c) -/

inductive FutureThreadsFailure where
  | importFail
  | noSettrace
  | notCallable
  | wrapFail
  | callFail
deriving DecidableEq, Repr

/-- `s_trace_future_threads` returns `-1` with a Python error set on any of
its failure paths, `0` on success. -/
def s_trace_future_threads (fail : Option FutureThreadsFailure) : Int :=
  match fail with
  | some _ => -1
  | none => 0

/-- `s_trace_existing_threads` has no failure path. -/
def s_trace_existing_threads : Int := 0

structure SetupRun where
  retval : Int
  ranExisting : Bool
deriving DecidableEq, Repr

/-- Embeds `ubeacon_trace_setup`: install on future threads first; any error
skips the existing-thread installation via `goto out` — but the code after the
`out` label returns the constant `0`, not `e`. -/
def ubeacon_trace_setup (fail : Option FutureThreadsFailure) : SetupRun :=
  let e := s_trace_future_threads fail
  if e ≠ 0 then { retval := 0, ranExisting := false }
  else
    let e2 := s_trace_existing_threads
    if e2 ≠ 0 then { retval := 0, ranExisting := true }
    else { retval := 0, ranExisting := true }

inductive StartResult where
  | retNone
  | errorNull
deriving DecidableEq, Repr

/-- Embeds `s_ubeacon_start` from ubeacon.c: `return NULL` (error) when
`ubeacon_trace_setup` reports nonzero, else `Py_RETURN_NONE`. -/
def s_ubeacon_start (fail : Option FutureThreadsFailure) : StartResult :=
  if (ubeacon_trace_setup fail).retval ≠ 0 then StartResult.errorNull
  else StartResult.retNone

/-! ## Shared concrete examples -/

/-- Heap: object 0 is a three-element list whose elements are objects 1-3
(the ints 10, 20, 30); object 4 is an empty combined-layout globals dict. -/
def exampleHeap : List PyVal :=
  [PyVal.list [1, 2, 3], PyVal.intv 10, PyVal.intv 20, PyVal.intv 30,
   PyVal.dict { entries := [], split := false }]

/-- A frame with a single fast local `x` bound to the list object 0. -/
def exampleFrame : RFrame :=
  { fid := 9, varnames := ["x"], localsplus := [some 0] }

def exampleCtx : ResolveCtx :=
  { heap := exampleHeap, frame := exampleFrame, globalsId := some 4 }

/-- The combined-layout map `{"a": 1, "b": 2, "c": 3}` (values by object id). -/
def abcDict : DictObj :=
  { entries :=
      [ { me_key := some (DKey.str "a"), me_value := 1 }
      , { me_key := some (DKey.str "b"), me_value := 2 }
      , { me_key := some (DKey.str "c"), me_value := 3 } ]
    split := false }

/-- The same table in split layout (`ma_values != NULL`). -/
def abcSplitDict : DictObj :=
  { entries := abcDict.entries, split := true }

def frameMain : FrameRec :=
  { fid := 1, funcName := "main", fileName := "a.py", line := 1 }

def frameG : FrameRec :=
  { fid := 2, funcName := "g", fileName := "a.py", line := 5 }

/-! ## Claims -/

/-- C1: the spec says the recorded `exception_origin` flag is true iff the
frame at the tail of the exception's traceback `tb_next` chain is identical
to the current frame, for tracebacks of every length.  The code satisfies
this for single-entry tracebacks, but for any traceback of two or more
entries the walk loop overwrites its `frame` variable with `NULL` on the
final iteration, so the flag is `false` even when the tail frame IS the
current frame: with a two-entry traceback both of whose entries record frame
5, traced at frame 5, the tail frame is 5 yet the recorded flag is false. -/
theorem c1_exception_origin_tail_bug :
    traceback_tail_frame [⟨some 5⟩, ⟨some 5⟩] = some 5 ∧
    (s_trace_entry_point initBeacon { fid := 5, funcName := "c", fileName := "c.py", line := 3 }
        [] TraceWhat.exception
        (some { isTuple := true, size := 3, excTypeName := some "ValueError",
                tb := [⟨some 5⟩, ⟨some 5⟩] })).exception_origin = false ∧
    s_is_exception_origin
      { isTuple := true, size := 3, excTypeName := some "ValueError",
        tb := [⟨some 5⟩] } 5 = true ∧
    s_is_exception_origin
      { isTuple := true, size := 3, excTypeName := some "ValueError",
        tb := [⟨some 5⟩] } 7 = false := by
  decide

/-- C5: the spec says every query short-circuits to a well-formed result with
an empty sequence part when the runtime is not initialized.  Backtrace,
locals and watch-chain resolution do exactly that, but the loaded-files dump
never checks `Py_IsInitialized`: when the `sys` import fails, control jumps
to `fail_no_python`, which prints the still-uninitialized `top_level` pointer
(undefined behaviour, modelled as `garbage`), not a well-formed `{"files":
[]}` object. -/
theorem c5_runtime_not_ready_bug :
    s_ubeacon_interact_files_json true false [] = QueryOutput.garbage ∧
    s_ubeacon_interact_backtrace_json true false [] = some { frames := [] } ∧
    s_ubeacon_interact_locals_json true false [] = some { locals := [] } ∧
    s_ubeacon_interact_resolve_watch_chain true false
        (some [Step.name (some "x")]) exampleHeap (some 4) (some exampleFrame) =
      some { links := [] } :=
  ⟨rfl, rfl, rfl, rfl⟩

/-- C6: the spec (and the code's own comment "Only include .py files (skip
None, .so, .pyd, etc.)") says only paths with the `.py` extension are
included, but the filter is `strstr(path, ".py") != NULL`, a substring test:
a module whose `__file__` is "ext.pyd" is included even though its extension
is not `.py`.  Modules without `__file__` and with a non-string `__file__`
are correctly excluded, as is "util.so". -/
theorem c6_files_filter_bug :
    s_ubeacon_interact_files_json true true
        [ { file := some (some "ext.pyd") }
        , { file := none }
        , { file := some none }
        , { file := some (some "util.so") }
        , { file := some (some "app.py") } ] =
      QueryOutput.written { files := ["ext.pyd", "app.py"] } ∧
    s_ends_with "ext.pyd".data ".py".data = false ∧
    s_ends_with "app.py".data ".py".data = true := by
  decide

/-- C10: `ubeacon_trace_setup` returns the constant `0` after the `out`
label, so even when installing tracing on future threads fails (and the
existing-thread installation is skipped) the caller `s_ubeacon_start` sees
success and can never report the failure. -/
theorem c10_setup_returns_zero (fail : Option FutureThreadsFailure) :
    (ubeacon_trace_setup fail).retval = 0 ∧
    s_ubeacon_start fail = StartResult.retNone ∧
    (fail ≠ none → (ubeacon_trace_setup fail).ranExisting = false) := by
  cases fail with
  | none => exact ⟨rfl, rfl, fun h => absurd rfl h⟩
  | some f => exact ⟨rfl, rfl, fun _ => rfl⟩

/-! ## C3: value-slot resolution -/

theorem s_dict_value_addr_go_eq_none (did : Nat) (split : Bool) (key : String) :
    ∀ (entries : List DictEntry) (i : Nat),
      s_dict_value_addr_go did split key i entries = none ↔
        ∀ e ∈ entries, entryMatches e key = false := by
  intro entries
  induction entries with
  | nil => intro i; simp [s_dict_value_addr_go]
  | cons e rest ih =>
      intro i
      by_cases hm : entryMatches e key
      · simp [s_dict_value_addr_go, hm]
      · rw [s_dict_value_addr_go, if_neg hm, ih (i + 1)]
        simp only [Bool.not_eq_true] at hm
        simp [hm]

theorem s_dict_value_addr_go_eq_some (did : Nat) (split : Bool) (key : String) :
    ∀ (entries : List DictEntry) (i : Nat) (a : Addr),
      s_dict_value_addr_go did split key i entries = some a →
      ∃ j e, entries.get? j = some e ∧ entryMatches e key = true ∧
        a = (if split then Addr.dictSplitValue did (i + j)
             else Addr.dictEntryValue did (i + j)) := by
  intro entries
  induction entries with
  | nil => intro i a h; simp [s_dict_value_addr_go] at h
  | cons e rest ih =>
      intro i a h
      by_cases hm : entryMatches e key
      · rw [s_dict_value_addr_go, if_pos hm] at h
        refine ⟨0, e, rfl, hm, ?_⟩
        cases h
        simp
      · rw [s_dict_value_addr_go, if_neg hm] at h
        obtain ⟨j, e2, hj, hmm, ha⟩ := ih (i + 1) a h
        refine ⟨j + 1, e2, by simpa using hj, hmm, ?_⟩
        rw [ha]
        have : i + 1 + j = i + (j + 1) := by omega
        rw [this]

/-- C3: for every map object and string key, `s_dict_value_addr` returns
`none` exactly when no entry's key is an exact case-sensitive string match,
and on success it returns the value-slot address of a matching entry — the
inline entry slot `&entries[i].me_value` for a combined table, or the slot
`&values[i]` at the same entry index in the separate values array for a
split table.  Concretely, for the map `{"a": 1, "b": 2, "c": 3}` the three
returned addresses are non-null and pairwise distinct (in both layouts), the
lookup is case-sensitive, and `"z"` is not found. -/
theorem c3_resolve_value_slot :
    (∀ (did : Nat) (d : DictObj) (key : String),
       (s_dict_value_addr did d key = none ↔
          ∀ e ∈ d.entries, entryMatches e key = false) ∧
       (∀ a, s_dict_value_addr did d key = some a →
          ∃ i e, d.entries.get? i = some e ∧ entryMatches e key = true ∧
            a = (if d.split then Addr.dictSplitValue did i
                 else Addr.dictEntryValue did i))) ∧
    (s_dict_value_addr 7 abcDict "a" = some (Addr.dictEntryValue 7 0) ∧
     s_dict_value_addr 7 abcDict "b" = some (Addr.dictEntryValue 7 1) ∧
     s_dict_value_addr 7 abcDict "c" = some (Addr.dictEntryValue 7 2) ∧
     s_dict_value_addr 7 abcDict "z" = none ∧
     s_dict_value_addr 7 abcDict "A" = none ∧
     s_dict_value_addr 8 abcSplitDict "b" = some (Addr.dictSplitValue 8 1) ∧
     Addr.dictEntryValue 7 0 ≠ Addr.dictEntryValue 7 1 ∧
     Addr.dictEntryValue 7 0 ≠ Addr.dictEntryValue 7 2 ∧
     Addr.dictEntryValue 7 1 ≠ Addr.dictEntryValue 7 2) := by
  constructor
  · intro did d key
    constructor
    · exact s_dict_value_addr_go_eq_none did d.split key d.entries 0
    · intro a h
      obtain ⟨j, e, hj, hm, ha⟩ :=
        s_dict_value_addr_go_eq_some did d.split key d.entries 0 a h
      exact ⟨j, e, hj, hm, by simpa using ha⟩
  · decide

/-- Witness for C3: the general characterization applied to the concrete map
`{"a": 1, "b": 2, "c": 3}` at key `"b"`. -/
theorem c3_resolve_value_slot_witness :
    ∃ i e, abcDict.entries.get? i = some e ∧ entryMatches e "b" = true ∧
      Addr.dictEntryValue 7 1 =
        (if abcDict.split then Addr.dictSplitValue 7 i
         else Addr.dictEntryValue 7 i) :=
  (c3_resolve_value_slot.1 7 abcDict "b").2 (Addr.dictEntryValue 7 1) (by decide)

/-! ## C2 / C7 / C8: chain-step behaviour -/

/-- Every skipped step — malformed, unresolvable, or a failed name lookup —
leaves the cursor at its prior value. -/
theorem s_resolve_step_skip (ctx : ResolveCtx) (cursor : Option Nat) (s : Step) :
    (s_resolve_step ctx cursor s).1 = none → (s_resolve_step ctx cursor s).2 = cursor := by
  cases s with
  | badType => intro _; rfl
  | name nm =>
      cases nm with
      | none => intro _; rfl
      | some n =>
          show (s_resolve_name ctx cursor n).1 = none →
              (s_resolve_name ctx cursor n).2 = cursor
          unfold s_resolve_name
          split
          · intro h; simp at h
          · split
            · intro _; rfl
            · split
              · split
                · intro h; simp at h
                · intro _; rfl
              · intro _; rfl
  | index oi =>
      cases oi with
      | none => intro _; rfl
      | some i =>
          show (s_resolve_index ctx cursor i).1 = none →
              (s_resolve_index ctx cursor i).2 = cursor
          unfold s_resolve_index
          split
          · intro _; rfl
          · split
            · split
              · intro h; simp at h
              · intro _; rfl
            · intro _; rfl
  | key ok =>
      cases ok with
      | none => intro _; rfl
      | some k =>
          show (s_resolve_key ctx cursor k).1 = none →
              (s_resolve_key ctx cursor k).2 = cursor
          unfold s_resolve_key
          split
          · intro _; rfl
          · split
            · split
              · intro h; simp at h
              · intro _; rfl
            · intro _; rfl
  | attr nm =>
      cases nm with
      | none => intro _; rfl
      | some n =>
          show (s_resolve_attr ctx cursor n).1 = none →
              (s_resolve_attr ctx cursor n).2 = cursor
          unfold s_resolve_attr
          split
          · intro _; rfl
          · split
            · intro _; rfl
            · split
              · split
                · split
                  · intro h; simp at h
                  · intro h; simp at h
                · intro h; simp at h
              · intro h; simp at h

/-- C2: the spec says a failed name lookup clears the cursor so that every
subsequent index/key/attribute step is skipped.  In the code nothing assigns
`current_obj` on that path: after `x` sets the cursor to the list object 0,
the failed lookup of `zzz` leaves the cursor at object 0 (not empty), and the
following `index(0)` step still resolves against it and emits a second
link. -/
theorem c2_counterexample :
    s_resolve_step exampleCtx (some 0) (Step.name (some "zzz")) = (none, some 0) ∧
    s_resolve_steps exampleCtx none
        [Step.name (some "x"), Step.name (some "zzz"), Step.index (some 0)] =
      [ { storage_addr := some (Addr.fastLocal 9 0), current_value := some 0,
          link_type := "local", guard_addr := none }
      , { storage_addr := some (Addr.listItem 0 0), current_value := some 1,
          link_type := "list_item", guard_addr := some (Addr.listItemsField 0) } ] := by
  decide

/-- C2 (amended): a name step whose identifier is found neither among the
frame's fast locals nor in the global namespace emits no link and leaves the
cursor at its prior value — exactly like every other skipped step — so
subsequent index/key/attribute steps are skipped only when the cursor was
already empty. -/
theorem c2_failed_name_keeps_cursor (ctx : ResolveCtx) (cursor : Option Nat)
    (nm : String)
    (hl : s_varname_index ctx.frame.varnames nm = none)
    (hg : s_globals_lookup ctx nm = none) :
    s_resolve_step ctx cursor (Step.name (some nm)) = (none, cursor) := by
  unfold s_globals_lookup at hg
  have h1 : (s_resolve_step ctx cursor (Step.name (some nm))).1 = none := by
    show (s_resolve_name ctx cursor nm).1 = none
    unfold s_resolve_name
    split
    · rename_i idx heq
      simp [hl] at heq
    · split
      · rfl
      · rename_i gid heq2
        simp only [heq2] at hg
        split
        · rename_i d heq3
          simp only [heq3] at hg
          split
          · rename_i v heq4
            simp [heq4] at hg
          · rfl
        · rfl
  have h2 := s_resolve_step_skip ctx cursor (Step.name (some nm)) h1
  rcases hp : s_resolve_step ctx cursor (Step.name (some nm)) with ⟨link, cur2⟩
  rw [hp] at h1 h2
  obtain rfl : link = none := h1
  obtain rfl : cur2 = cursor := h2
  rfl

theorem c2_failed_name_keeps_cursor_witness :
    s_resolve_step exampleCtx (some 3) (Step.name (some "nope")) = (none, some 3) :=
  c2_failed_name_keeps_cursor exampleCtx (some 3) "nope" (by decide) (by decide)

/-- C7: links are emitted in input chain order, exactly one per successfully
resolved step: a resolved step prepends its single link and resolution
continues with the updated cursor, while a skipped step (including every
structurally invalid step shape) emits no link, raises no error, leaves the
cursor unchanged and processing continues with the later steps. -/
theorem c7_links_order_and_skips (ctx : ResolveCtx) (cursor : Option Nat)
    (s : Step) (rest : List Step) :
    (∀ l, (s_resolve_step ctx cursor s).1 = some l →
        s_resolve_steps ctx cursor (s :: rest) =
          l :: s_resolve_steps ctx (s_resolve_step ctx cursor s).2 rest) ∧
    ((s_resolve_step ctx cursor s).1 = none →
        s_resolve_steps ctx cursor (s :: rest) = s_resolve_steps ctx cursor rest) ∧
    s_resolve_step ctx cursor Step.badType = (none, cursor) ∧
    s_resolve_step ctx cursor (Step.name none) = (none, cursor) ∧
    s_resolve_step ctx cursor (Step.index none) = (none, cursor) ∧
    s_resolve_step ctx cursor (Step.key none) = (none, cursor) ∧
    s_resolve_step ctx cursor (Step.attr none) = (none, cursor) := by
  refine ⟨?_, ?_, rfl, rfl, rfl, rfl, rfl⟩
  · intro l hl
    rcases hp : s_resolve_step ctx cursor s with ⟨link, cur2⟩
    rw [hp] at hl
    obtain rfl : link = some l := hl
    simp only [s_resolve_steps, hp]
  · intro hn
    have hc := s_resolve_step_skip ctx cursor s hn
    rcases hp : s_resolve_step ctx cursor s with ⟨link, cur2⟩
    rw [hp] at hn hc
    obtain rfl : link = none := hn
    obtain rfl : cur2 = cursor := hc
    simp only [s_resolve_steps, hp]

theorem c7_links_order_and_skips_witness :
    s_resolve_steps exampleCtx none (Step.name (some "x") :: [Step.index (some 1)]) =
      { storage_addr := some (Addr.fastLocal 9 0), current_value := some 0,
        link_type := "local", guard_addr := none } ::
        s_resolve_steps exampleCtx
          (s_resolve_step exampleCtx none (Step.name (some "x"))).2
          [Step.index (some 1)] :=
  (c7_links_order_and_skips exampleCtx none (Step.name (some "x"))
      [Step.index (some 1)]).1 _ (by decide)

/-- C8: an index step emits a link exactly when the cursor holds a list
object and the index is within `[0, length)`; the link's storage address is
the element slot `&ob_item[index]` inside the backing array, its guard
address is the backing-array pointer field `&list->ob_item`, its kind is
`list_item`, and the cursor becomes the element's value.  Concretely the
chain `[name("x"), index(1)]` over the local three-element list `[10, 20,
30]` yields exactly two links, the second of which identifies the object
holding 20. -/
theorem c8_index_step :
    (∀ (ctx : ResolveCtx) (cursor : Option Nat) (i : Int) (l : Link)
        (cur2 : Option Nat),
        s_resolve_step ctx cursor (Step.index (some i)) = (some l, cur2) →
        ∃ cid items, cursor = some cid ∧
          s_heap_get ctx.heap cid = some (PyVal.list items) ∧
          0 ≤ i ∧ i < (items.length : Int) ∧
          l = { storage_addr := some (Addr.listItem cid i.toNat)
                current_value := items.get? i.toNat
                link_type := "list_item"
                guard_addr := some (Addr.listItemsField cid) } ∧
          cur2 = items.get? i.toNat) ∧
    s_resolve_steps exampleCtx none [Step.name (some "x"), Step.index (some 1)] =
      [ { storage_addr := some (Addr.fastLocal 9 0), current_value := some 0,
          link_type := "local", guard_addr := none }
      , { storage_addr := some (Addr.listItem 0 1), current_value := some 2,
          link_type := "list_item", guard_addr := some (Addr.listItemsField 0) } ] ∧
    s_heap_get exampleCtx.heap 2 = some (PyVal.intv 20) := by
  refine ⟨?_, by decide, by decide⟩
  intro ctx cursor i l cur2
  show s_resolve_index ctx cursor i = (some l, cur2) → _
  unfold s_resolve_index
  split
  · intro h; simp at h
  · split
    · split
      · intro h
        rw [Prod.mk.injEq, Option.some.injEq] at h
        rename_i cid x items hheap hcond
        exact ⟨cid, items, rfl, hheap, hcond.1, hcond.2, h.1.symm, h.2.symm⟩
      · intro h; simp at h
    · intro h; simp at h

theorem c8_index_step_witness :
    ∃ cid items, (some 0 : Option Nat) = some cid ∧
      s_heap_get exampleCtx.heap cid = some (PyVal.list items) ∧
      (0 : Int) ≤ 1 ∧ (1 : Int) < (items.length : Int) ∧
      ({ storage_addr := some (Addr.listItem 0 1), current_value := some 2,
         link_type := "list_item", guard_addr := some (Addr.listItemsField 0) } : Link) =
        { storage_addr := some (Addr.listItem cid (1 : Int).toNat)
          current_value := items.get? (1 : Int).toNat
          link_type := "list_item"
          guard_addr := some (Addr.listItemsField cid) } ∧
      (some 2 : Option Nat) = items.get? (1 : Int).toNat :=
  c8_index_step.1 exampleCtx (some 0) 1 _ _ (by decide)

/-! ## C9: per-event reference release and exception-state clearing -/

/-- The reference the tracker ought to hold: one on the current frame if any,
none otherwise. -/
def frame_ref_list : Option Nat → List Nat
  | some f => [f]
  | none => []

theorem s_trace_prologue_held (st : BeaconState) (top : FrameRec)
    (back : List FrameRec)
    (h : st.heldFrameRefs = frame_ref_list st.current_frame) :
    (s_trace_prologue st top back).heldFrameRefs = [top.fid] := by
  show (match st.current_frame with
        | some f => s_refs_erase (top.fid :: st.heldFrameRefs) f
        | none => top.fid :: st.heldFrameRefs) = [top.fid]
  cases hc : st.current_frame with
  | none =>
      rw [hc] at h
      rw [h]
      rfl
  | some f =>
      rw [hc] at h
      rw [h]
      by_cases hf : top.fid = f
      · simp [frame_ref_list, s_refs_erase, hf]
      · simp [frame_ref_list, s_refs_erase, hf]

/-- C9: on every trace event, whatever its kind, the tracker ends up holding
exactly one frame reference — on the newly stored current frame (none after a
return, whose epilogue releases it) — so the reference previously held is
released when the new one is stored; and the prologue clears all previously
recorded exception state before the per-kind effects, so after any call,
line, or return event the exception state is empty (origin flag false,
exception record, type name and type hash reset). -/
theorem c9_prologue_clears_state (st : BeaconState) (top : FrameRec)
    (back : List FrameRec) (what : TraceWhat) (arg : Option ExcArg)
    (h : st.heldFrameRefs = frame_ref_list st.current_frame) :
    ((s_trace_entry_point st top back what arg).heldFrameRefs =
        frame_ref_list (s_trace_entry_point st top back what arg).current_frame) ∧
    (what ≠ TraceWhat.exception →
        (s_trace_entry_point st top back what arg).exception_origin = false ∧
        (s_trace_entry_point st top back what arg).exception_info = none ∧
        (s_trace_entry_point st top back what arg).exception_type = none ∧
        (s_trace_entry_point st top back what arg).exception_type_id = 0) := by
  have hheld := s_trace_prologue_held st top back h
  cases what with
  | line => exact ⟨hheld, fun _ => ⟨rfl, rfl, rfl, rfl⟩⟩
  | call => exact ⟨hheld, fun _ => ⟨rfl, rfl, rfl, rfl⟩⟩
  | ret =>
      refine ⟨?_, fun _ => ⟨rfl, rfl, rfl, rfl⟩⟩
      show s_refs_erase (s_trace_prologue st top back).heldFrameRefs top.fid =
          frame_ref_list none
      rw [hheld]
      simp [s_refs_erase, frame_ref_list]
  | exception =>
      cases arg with
      | none => exact ⟨hheld, fun hne => absurd rfl hne⟩
      | some a => exact ⟨hheld, fun hne => absurd rfl hne⟩

theorem c9_prologue_clears_state_witness :
    ((s_trace_entry_point initBeacon frameMain [] TraceWhat.line none).heldFrameRefs =
        frame_ref_list
          (s_trace_entry_point initBeacon frameMain [] TraceWhat.line none).current_frame) ∧
    (TraceWhat.line ≠ TraceWhat.exception →
        (s_trace_entry_point initBeacon frameMain [] TraceWhat.line none).exception_origin
            = false ∧
        (s_trace_entry_point initBeacon frameMain [] TraceWhat.line none).exception_info
            = none ∧
        (s_trace_entry_point initBeacon frameMain [] TraceWhat.line none).exception_type
            = none ∧
        (s_trace_entry_point initBeacon frameMain [] TraceWhat.line none).exception_type_id
            = 0) :=
  c9_prologue_clears_state initBeacon frameMain [] TraceWhat.line none rfl

/-! ## C4: depth tracking -/

theorem runTrace_open_counts :
    ∀ (es : List TEvent) (st : BeaconState) (stack : List FrameRec)
      (out : BeaconState × List FrameRec × List Nat),
      runTrace st stack es = some out →
      openCallCounts stack.length es = some out.2.2 ∧ ∀ d ∈ out.2.2, 1 ≤ d := by
  intro es
  induction es with
  | nil =>
      intro st stack out h
      simp only [runTrace, Option.some.injEq] at h
      subst h
      simp [openCallCounts]
  | cons e es ih =>
      intro st stack out h
      cases e with
      | call f =>
          simp only [runTrace, stepEvent] at h
          cases hr : runTrace (s_trace_entry_point st f stack TraceWhat.call none)
              (f :: stack) es with
          | none => rw [hr] at h; exact Option.noConfusion h
          | some r =>
              obtain ⟨st3, stack3, ds⟩ := r
              rw [hr] at h
              simp only [Option.some.injEq] at h
              subst h
              obtain ⟨h1, h2⟩ := ih _ _ _ hr
              simp only [List.length_cons] at h1
              constructor
              · simp only [openCallCounts, h1, s_trace_entry_point_depth]
              · intro d hd
                simp only [s_trace_entry_point_depth, List.mem_cons] at hd
                rcases hd with hd | hd
                · omega
                · exact h2 d hd
      | line =>
          cases stack with
          | nil =>
              simp only [runTrace, stepEvent] at h
              exact Option.noConfusion h
          | cons top rest =>
              simp only [runTrace, stepEvent] at h
              cases hr : runTrace (s_trace_entry_point st top rest TraceWhat.line none)
                  (top :: rest) es with
              | none => rw [hr] at h; exact Option.noConfusion h
              | some r =>
                  obtain ⟨st3, stack3, ds⟩ := r
                  rw [hr] at h
                  simp only [Option.some.injEq] at h
                  subst h
                  obtain ⟨h1, h2⟩ := ih _ _ _ hr
                  simp only [List.length_cons] at h1
                  constructor
                  · simp only [List.length_cons, openCallCounts]
                    rw [if_neg (by omega : ¬ rest.length + 1 = 0)]
                    simp only [h1, s_trace_entry_point_depth]
                  · intro d hd
                    simp only [s_trace_entry_point_depth, List.mem_cons] at hd
                    rcases hd with hd | hd
                    · omega
                    · exact h2 d hd
      | ret =>
          cases stack with
          | nil =>
              simp only [runTrace, stepEvent] at h
              exact Option.noConfusion h
          | cons top rest =>
              simp only [runTrace, stepEvent] at h
              cases hr : runTrace (s_trace_entry_point st top rest TraceWhat.ret none)
                  rest es with
              | none => rw [hr] at h; exact Option.noConfusion h
              | some r =>
                  obtain ⟨st3, stack3, ds⟩ := r
                  rw [hr] at h
                  simp only [Option.some.injEq] at h
                  subst h
                  obtain ⟨h1, h2⟩ := ih _ _ _ hr
                  constructor
                  · simp only [List.length_cons, openCallCounts]
                    rw [if_neg (by omega : ¬ rest.length + 1 = 0)]
                    simp only [Nat.add_sub_cancel, h1, s_trace_entry_point_depth]
                  · intro d hd
                    simp only [s_trace_entry_point_depth, List.mem_cons] at hd
                    rcases hd with hd | hd
                    · omega
                    · exact h2 d hd

/-- C4: over every strictly nested sequence of call/line/return events, the
depths recorded in `current_depth` after each event are exactly the number of
calls open at that event (the returning call counting as open during its own
return event), and the depth computed by walking a live frame's
back-reference chain is at least 1 whenever any frame is active. -/
theorem c4_depth_tracks_open_calls (st : BeaconState) (stack : List FrameRec)
    (es : List TEvent) (h : (runTrace st stack es).isSome = true) :
    Option.map (fun r => r.2.2) (runTrace st stack es) =
        openCallCounts stack.length es ∧
    (∀ r, runTrace st stack es = some r → ∀ d ∈ r.2.2, 1 ≤ d) ∧
    (∀ (top : FrameRec) (back : List FrameRec),
        1 ≤ s_calculate_stack_depth (top :: back)) := by
  obtain ⟨out, hout⟩ := Option.isSome_iff_exists.mp h
  obtain ⟨h1, h2⟩ := runTrace_open_counts es st stack out hout
  refine ⟨?_, ?_, ?_⟩
  · rw [hout, Option.map_some', h1]
  · intro r hr
    rw [hout] at hr
    injection hr with hh
    subst hh
    exact h2
  · intro top back
    rw [s_calculate_stack_depth_eq_length]
    simp

/-- The event sequence: `main` is called, runs a line, calls `g`, which runs
a line and returns, then `main` runs a line and returns. -/
def c4events : List TEvent :=
  [TEvent.call frameMain, TEvent.line, TEvent.call frameG, TEvent.line,
   TEvent.ret, TEvent.line, TEvent.ret]

theorem c4_depth_tracks_open_calls_witness :
    Option.map (fun r => r.2.2) (runTrace initBeacon [] c4events) =
        openCallCounts 0 c4events ∧
    (∀ r, runTrace initBeacon [] c4events = some r → ∀ d ∈ r.2.2, 1 ≤ d) ∧
    (∀ (top : FrameRec) (back : List FrameRec),
        1 ≤ s_calculate_stack_depth (top :: back)) :=
  c4_depth_tracks_open_calls initBeacon [] c4events (by rfl)
